import Mathlib

/-!
Verification development for the NeoVI MIC2 driver abstraction
(bit-banged digital I/O, GPS engine, audio capture pipeline).

The repository's visible material is the Python test/example suite; the
driver core itself is not present.  The definitions below model the core
from the specification and from the behaviour pinned by the tests
(src/crates/python/tests/test_neovimic.py, tests/neovimic.py,
examples/python/gps.py).
-/

/-- Error taxonomy of the driver (spec section 7). -/
inductive MicError where
  | notOpen
  | deviceBusy
  | alreadyCapturing
  | notCapturing
  | noBufferedAudio
  | unsupportedRate
  | fieldUnavailable
  | transportError
deriving DecidableEq, Repr

/-! ## BitIO controller -/

/-- Modelled from the spec: BitIO State (spec section 3) — the bit-bang
digital I/O controller state, whose core implementation is not under src/.
Open/closed flag, current output bitmask (byte), and the device-sensed
button input. -/
structure BitIOState where
  isOpen : Bool
  outputMask : Nat
  buttonPressed : Bool
deriving DecidableEq, Repr

/-- A freshly obtained controller: closed, all outputs low, button released. -/
def BitIOState.initial : BitIOState :=
  { isOpen := false, outputMask := 0, buttonPressed := false }

/-- Buzzer value bit of the shared register (tests write 0x51 to turn the
buzzer on). -/
def buzzerValueBit : Nat := 0x01

/-- Buzzer enable (direction) bit of the shared register. -/
def buzzerEnableBit : Nat := 0x10

/-- GPS-LED value bit of the shared register (tests write 0x54 to turn the
LED on). -/
def gpsledValueBit : Nat := 0x04

/-- GPS-LED enable (direction) bit of the shared register. -/
def gpsledEnableBit : Nat := 0x40

/-- Button input bit of the shared register. -/
def buttonBit : Nat := 0x02

/-- Modelled from the spec: the set of register bits wired as inputs — the
low-nibble value bits; the enable bits of the high nibble are not read
back (tests: writing 0x51 reads 0x01, 0x54 reads 0x04, 0x50 reads 0x00). -/
def inputWiredMask : Nat := 0x0F

/-- Modelled from the spec: io_open claims the bit-bang interface; fails
with DeviceBusy if already open (spec section 4.1). -/
def io_open (st : BitIOState) : Except MicError BitIOState :=
  if st.isOpen then .error .deviceBusy else .ok { st with isOpen := true }

/-- Modelled from the spec: io_close releases the interface; safe to call
when already closed (no-op, spec section 4.1). -/
def io_close (st : BitIOState) : BitIOState :=
  { st with isOpen := false }

/-- Modelled from the spec: io_is_open reports the open/closed flag. -/
def io_is_open (st : BitIOState) : Bool :=
  st.isOpen

/-- Modelled from the spec: io_set_bitmode_raw writes the full output
bitmask in one operation; fails with NotOpen if closed (spec section 4.1). -/
def io_set_bitmode_raw (m : Nat) (st : BitIOState) : Except MicError BitIOState :=
  if st.isOpen then .ok { st with outputMask := m % 256 } else .error .notOpen

/-- Modelled from the spec: io_read_pins_raw reads back the current input
bitmask — driven outputs that are wired as inputs, plus sensed inputs such
as the button; fails with NotOpen if closed (spec section 4.1). -/
def io_read_pins_raw (st : BitIOState) : Except MicError Nat :=
  if st.isOpen then
    .ok ((st.outputMask &&& inputWiredMask) |||
      (if st.buttonPressed then buttonBit else 0))
  else .error .notOpen

/-- The register byte a buzzer setter writes: read-modify-write of the
current mask, asserting the enable bit together with the value bit. -/
def buzzerWriteMask (b : Bool) (cur : Nat) : Nat :=
  if b then cur ||| (buzzerEnableBit ||| buzzerValueBit)
  else (cur ||| buzzerEnableBit) &&& (0xFF ^^^ buzzerValueBit)

/-- The register byte a GPS-LED setter writes: read-modify-write of the
current mask, asserting the enable bit together with the value bit. -/
def gpsledWriteMask (b : Bool) (cur : Nat) : Nat :=
  if b then cur ||| (gpsledEnableBit ||| gpsledValueBit)
  else (cur ||| gpsledEnableBit) &&& (0xFF ^^^ gpsledValueBit)

/-- Modelled from the spec: io_buzzer_enable performs one single raw
register write of the read-modified mask (spec sections 4.1, 5). -/
def io_buzzer_enable (b : Bool) (st : BitIOState) : Except MicError BitIOState :=
  io_set_bitmode_raw (buzzerWriteMask b st.outputMask) st

/-- Modelled from the spec: io_buzzer_is_enabled re-reads the raw input
mask and extracts the buzzer bit; it holds no state of its own. -/
def io_buzzer_is_enabled (st : BitIOState) : Except MicError Bool :=
  (io_read_pins_raw st).map (fun pins => (pins &&& buzzerValueBit) != 0)

/-- Modelled from the spec: io_gpsled_enable performs one single raw
register write of the read-modified mask (spec sections 4.1, 5). -/
def io_gpsled_enable (b : Bool) (st : BitIOState) : Except MicError BitIOState :=
  io_set_bitmode_raw (gpsledWriteMask b st.outputMask) st

/-- Modelled from the spec: io_gpsled_is_enabled re-reads the raw input
mask and extracts the GPS-LED bit; it holds no state of its own. -/
def io_gpsled_is_enabled (st : BitIOState) : Except MicError Bool :=
  (io_read_pins_raw st).map (fun pins => (pins &&& gpsledValueBit) != 0)

/-- Modelled from the spec: io_button_is_pressed re-reads the raw input
mask and extracts the button bit. -/
def io_button_is_pressed (st : BitIOState) : Except MicError Bool :=
  (io_read_pins_raw st).map (fun pins => (pins &&& buttonBit) != 0)

/-! ## Bit-level facts about the shared register (bounded, decidable) -/

theorem readback_eq_and (m : Nat) (hm : m < 256) :
    ∀ st : BitIOState, st.isOpen = true → st.buttonPressed = false →
      (io_set_bitmode_raw m st >>= io_read_pins_raw) = .ok (m &&& inputWiredMask) := by
  intro st hopen hbtn
  simp [io_set_bitmode_raw, io_read_pins_raw, hopen, hbtn, Bind.bind, Except.bind,
    Nat.mod_eq_of_lt hm]

set_option maxRecDepth 2048 in
theorem buzzer_roundtrip_bits :
    ∀ cur : Nat, cur < 256 → ∀ b btn : Bool,
      ((((buzzerWriteMask b cur % 256) &&& inputWiredMask) |||
          (if btn then buttonBit else 0)) &&& buzzerValueBit != 0) = b ∧
      ((buzzerWriteMask b cur % 256) &&& buzzerEnableBit = buzzerEnableBit) := by
  decide

set_option maxRecDepth 2048 in
theorem gpsled_roundtrip_bits :
    ∀ cur : Nat, cur < 256 → ∀ b btn : Bool,
      ((((gpsledWriteMask b cur % 256) &&& inputWiredMask) |||
          (if btn then buttonBit else 0)) &&& gpsledValueBit != 0) = b ∧
      ((gpsledWriteMask b cur % 256) &&& gpsledEnableBit = gpsledEnableBit) := by
  decide

/-! ## Claims about the BitIO controller -/

/-- Claim C1: for every byte mask m written with io_set_bitmode_raw on an
open BitIO controller (button released), an immediately following
io_read_pins_raw returns exactly the output bits of m that are also wired
as inputs; in particular 0x51 reads back 0x01, 0x50 reads back 0x00 and
0x54 reads back 0x04. -/
theorem claim_C1 (st : BitIOState) (hopen : st.isOpen = true)
    (hbtn : st.buttonPressed = false) :
    (∀ m : Nat, m < 256 →
      (io_set_bitmode_raw m st >>= io_read_pins_raw) = .ok (m &&& inputWiredMask)) ∧
    (io_set_bitmode_raw 0x51 st >>= io_read_pins_raw) = .ok 0x01 ∧
    (io_set_bitmode_raw 0x50 st >>= io_read_pins_raw) = .ok 0x00 ∧
    (io_set_bitmode_raw 0x54 st >>= io_read_pins_raw) = .ok 0x04 := by
  refine ⟨fun m hm => readback_eq_and m hm st hopen hbtn, ?_, ?_, ?_⟩ <;>
    simp [io_set_bitmode_raw, io_read_pins_raw, hopen, hbtn, Bind.bind, Except.bind,
      inputWiredMask, buttonBit] <;> decide

theorem claim_C1_witness :
    let st : BitIOState := { isOpen := true, outputMask := 0, buttonPressed := false }
    (io_set_bitmode_raw 0x51 st >>= io_read_pins_raw) = .ok 0x01 ∧
    (io_set_bitmode_raw 0x50 st >>= io_read_pins_raw) = .ok 0x00 ∧
    (io_set_bitmode_raw 0x54 st >>= io_read_pins_raw) = .ok 0x04 ∧
    (io_set_bitmode_raw 0x33 st >>= io_read_pins_raw) = .ok (0x33 &&& inputWiredMask) := by
  intro st
  obtain ⟨hall, h1, h2, h3⟩ := claim_C1 st rfl rfl
  exact ⟨h1, h2, h3, hall 0x33 (by decide)⟩

/-- Claim C6: the BitIO open/close lifecycle is order-preserving and
idempotent: a fresh controller is closed, io_open makes io_is_open true,
io_close makes it false again, and io_close on an already-closed
controller is a no-op rather than an error. -/
theorem claim_C6 (st : BitIOState) (hclosed : st.isOpen = false) :
    io_is_open BitIOState.initial = false ∧
    (∃ st1, io_open BitIOState.initial = .ok st1 ∧
      io_is_open st1 = true ∧
      io_is_open (io_close st1) = false ∧
      io_close (io_close st1) = io_close st1) ∧
    io_close st = st := by
  refine ⟨rfl, ⟨{ BitIOState.initial with isOpen := true }, rfl, rfl, rfl, rfl⟩, ?_⟩
  cases st
  simp_all [io_close]

theorem claim_C6_witness :
    BitIOState.initial.isOpen = false ∧
    io_close BitIOState.initial = BitIOState.initial :=
  ⟨by decide, (claim_C6 BitIOState.initial (by decide)).2.2⟩

/-- Claim C7: for every boolean b on an open BitIO controller, each
semantic setter is exactly one single raw write of the shared register
that asserts the pin's enable bit together with its value bit, and the
corresponding semantic getter re-reads the raw input mask and returns b. -/
theorem claim_C7 (b : Bool) (st : BitIOState) (hopen : st.isOpen = true)
    (hmask : st.outputMask < 256) :
    io_buzzer_enable b st = io_set_bitmode_raw (buzzerWriteMask b st.outputMask) st ∧
    io_gpsled_enable b st = io_set_bitmode_raw (gpsledWriteMask b st.outputMask) st ∧
    (io_buzzer_enable b st >>= io_buzzer_is_enabled) = .ok b ∧
    (io_gpsled_enable b st >>= io_gpsled_is_enabled) = .ok b ∧
    (∀ st1, io_buzzer_enable b st = .ok st1 →
      st1.outputMask &&& buzzerEnableBit = buzzerEnableBit) ∧
    (∀ st1, io_gpsled_enable b st = .ok st1 →
      st1.outputMask &&& gpsledEnableBit = gpsledEnableBit) := by
  obtain ⟨hbuzz, hbuzzEn⟩ := buzzer_roundtrip_bits st.outputMask hmask b st.buttonPressed
  obtain ⟨hled, hledEn⟩ := gpsled_roundtrip_bits st.outputMask hmask b st.buttonPressed
  refine ⟨rfl, rfl, ?_, ?_, ?_, ?_⟩
  · simpa [io_buzzer_enable, io_set_bitmode_raw, io_buzzer_is_enabled,
      io_read_pins_raw, hopen, Bind.bind, Except.bind, Except.map] using hbuzz
  · simpa [io_gpsled_enable, io_set_bitmode_raw, io_gpsled_is_enabled,
      io_read_pins_raw, hopen, Bind.bind, Except.bind, Except.map] using hled
  · intro st1 h1
    simp only [io_buzzer_enable, io_set_bitmode_raw, hopen, if_true] at h1
    cases h1
    simpa using hbuzzEn
  · intro st1 h1
    simp only [io_gpsled_enable, io_set_bitmode_raw, hopen, if_true] at h1
    cases h1
    simpa using hledEn

theorem claim_C7_witness :
    let st : BitIOState := { isOpen := true, outputMask := 0, buttonPressed := false }
    (io_buzzer_enable true st >>= io_buzzer_is_enabled) = .ok true ∧
    (io_gpsled_enable true st >>= io_gpsled_is_enabled) = .ok true := by
  intro st
  obtain ⟨-, -, hb, hl, -, -⟩ := claim_C7 true st rfl (by decide)
  exact ⟨hb, hl⟩

/-! ## GPS data model: satellites and DMS coordinates -/

/-- Modelled from the spec: Satellite entry (spec section 3) — PRN, used
flag, lock time, and three optional signal-quality fields whose absence is
distinct from zero.  The core implementation is not under src/. -/
structure GPSSatInfo where
  prn : Nat
  used : Bool
  azimuth : Option ℚ
  elevation : Option ℚ
  snr : Option ℚ
  lock_time : Nat
deriving DecidableEq, Repr

/-- A default-constructed Satellite: prn 0, unused, no optional fields. -/
def GPSSatInfo.default : GPSSatInfo :=
  { prn := 0, used := false, azimuth := none, elevation := none, snr := none,
    lock_time := 0 }

/-- Reading the optional azimuth: absent signals FieldUnavailable, never a
default value (spec sections 3, 7). -/
def GPSSatInfo.getAzimuth (s : GPSSatInfo) : Except MicError ℚ :=
  match s.azimuth with
  | some v => .ok v
  | none => .error .fieldUnavailable

/-- Reading the optional elevation: absent signals FieldUnavailable. -/
def GPSSatInfo.getElevation (s : GPSSatInfo) : Except MicError ℚ :=
  match s.elevation with
  | some v => .ok v
  | none => .error .fieldUnavailable

/-- Reading the optional signal-to-noise ratio: absent signals
FieldUnavailable. -/
def GPSSatInfo.getSnr (s : GPSSatInfo) : Except MicError ℚ :=
  match s.snr with
  | some v => .ok v
  | none => .error .fieldUnavailable

/-- Text of a rational: integers print as their numerator. -/
def ratText (q : ℚ) : String :=
  if q.den = 1 then toString q.num else toString q.num ++ "/" ++ toString q.den

/-- Text of an optional signal field: absent prints as None. -/
def optText : Option ℚ → String
  | none => "None"
  | some v => ratText v

/-- Lowercase boolean text, as the bindings print it. -/
def boolText (b : Bool) : String :=
  if b then "true" else "false"

/-- Satellite display form, as pinned by test_gps_sat_info. -/
def GPSSatInfo.display (s : GPSSatInfo) : String :=
  "prn: " ++ toString s.prn ++ ", used: " ++ boolText s.used ++
    ", azimuth: " ++ optText s.azimuth ++ ", elevation: " ++ optText s.elevation ++
    ", snr: " ++ optText s.snr ++ ", lock_time: " ++ toString s.lock_time

/-- Satellite debug form: the display form wrapped in a PyGPSSatInfo tag,
as pinned by test_gps_sat_info. -/
def GPSSatInfo.debug (s : GPSSatInfo) : String :=
  "<PyGPSSatInfo " ++ s.display ++ ">"

/-- Modelled from the spec: GPSDMS (spec section 3) — a coordinate
component decomposed into degrees, minutes, seconds, all 0 by default. -/
structure GPSDMS where
  degrees : Int
  minutes : Nat
  seconds : ℚ
deriving DecidableEq, Repr

/-- A default-constructed GPSDMS: all components 0. -/
def GPSDMS.default : GPSDMS :=
  { degrees := 0, minutes := 0, seconds := 0 }

/-- GPSDMS display form, degree sign then apostrophe then double-quote. -/
def GPSDMS.display (d : GPSDMS) : String :=
  toString d.degrees ++ "° " ++ toString d.minutes ++ "' " ++
    ratText d.seconds ++ "\""

/-- GPSDMS debug form: the display form wrapped in a PyGPSDMS tag, as
pinned by test_gps_dms. -/
def GPSDMS.debug (d : GPSDMS) : String :=
  "<PyGPSDMS " ++ d.display ++ ">"

/-! ## Claims about the satellite and DMS data model -/

/-- Claim C5: a default-constructed Satellite has prn 0, used false,
lock_time 0, and each of azimuth, elevation and snr absent, so reading any
of them yields the FieldUnavailable error rather than a default value;
"unavailable" is never interchangeable with zero. -/
theorem claim_C5 :
    GPSSatInfo.default.prn = 0 ∧
    GPSSatInfo.default.used = false ∧
    GPSSatInfo.default.lock_time = 0 ∧
    GPSSatInfo.default.getAzimuth = .error .fieldUnavailable ∧
    GPSSatInfo.default.getElevation = .error .fieldUnavailable ∧
    GPSSatInfo.default.getSnr = .error .fieldUnavailable ∧
    GPSSatInfo.default.getAzimuth ≠ .ok 0 ∧
    GPSSatInfo.default.getElevation ≠ .ok 0 ∧
    GPSSatInfo.default.getSnr ≠ .ok 0 := by
  refine ⟨rfl, rfl, rfl, rfl, rfl, rfl, ?_, ?_, ?_⟩ <;>
    simp [GPSSatInfo.default, GPSSatInfo.getAzimuth, GPSSatInfo.getElevation,
      GPSSatInfo.getSnr]

/-- Claim C8, counterexample: the debug textual form of a
default-constructed GPSDMS is not the bare string 0° 0' 0" — the test
suite pins it as that string wrapped in a PyGPSDMS tag. -/
theorem claim_C8_counterexample :
    GPSDMS.default.debug ≠ "0° 0' 0\"" := by
  decide

/-- Claim C8, amended: a default-constructed GPSDMS has degrees, minutes
and seconds all 0; its display form is exactly 0° 0' 0" and its debug form
is that string wrapped as a PyGPSDMS tag. -/
theorem claim_C8 :
    GPSDMS.default.degrees = 0 ∧
    GPSDMS.default.minutes = 0 ∧
    GPSDMS.default.seconds = 0 ∧
    GPSDMS.default.display = "0° 0' 0\"" ∧
    GPSDMS.default.debug = "<PyGPSDMS 0° 0' 0\">" := by
  refine ⟨rfl, rfl, rfl, ?_, ?_⟩ <;> decide

/-- Claim C10: a default-constructed Satellite displays exactly as
prn: 0, used: false, azimuth: None, elevation: None, snr: None,
lock_time: 0 (absent optional fields rendered as None), and its debug form
is that string wrapped in a PyGPSSatInfo tag. -/
theorem claim_C10 :
    GPSSatInfo.default.display =
      "prn: 0, used: false, azimuth: None, elevation: None, snr: None, lock_time: 0" ∧
    GPSSatInfo.default.debug =
      "<PyGPSSatInfo prn: 0, used: false, azimuth: None, elevation: None, snr: None, lock_time: 0>" := by
  constructor <;> decide

/-! ## Coordinate conversion: decimal degrees to DMS and back -/

/-- Rounding to the receiver's reported precision of p decimal places. -/
def roundToPrec (p : Nat) (q : ℚ) : ℚ :=
  ((round (q * 10 ^ p) : ℤ) : ℚ) / 10 ^ p

/-- Modelled from the spec: decimal-degree to DMS conversion (spec section
4.2) — degrees is the integer part, minutes the integer part of the
fractional degrees times 60, seconds the remaining fraction times 60
rounded to the receiver's reported precision. -/
def ddToDMS (x : ℚ) (p : Nat) : GPSDMS :=
  let d : ℤ := ⌊x⌋
  let mFrac : ℚ := (x - d) * 60
  let m : ℤ := ⌊mFrac⌋
  { degrees := d, minutes := m.toNat, seconds := roundToPrec p ((mFrac - m) * 60) }

/-- DMS back to decimal degrees. -/
def dmsToDD (d : GPSDMS) : ℚ :=
  (d.degrees : ℚ) + (d.minutes : ℚ) / 60 + d.seconds / 3600

theorem roundToPrec_close (p : Nat) (q : ℚ) :
    |roundToPrec p q - q| ≤ 1 / (2 * 10 ^ p) := by
  have hpow : (0 : ℚ) < 10 ^ p := by positivity
  have h := abs_sub_round (q * 10 ^ p)
  have hq : roundToPrec p q - q = ((round (q * 10 ^ p) : ℤ) - q * 10 ^ p) / 10 ^ p := by
    rw [roundToPrec]
    field_simp
    ring
  rw [hq, abs_div, abs_of_pos hpow, div_le_div_iff hpow (by positivity)]
  calc |((round (q * 10 ^ p) : ℤ) : ℚ) - q * 10 ^ p| * (2 * 10 ^ p)
      = |q * 10 ^ p - (round (q * 10 ^ p) : ℤ)| * (2 * 10 ^ p) := by
        rw [abs_sub_comm]
    _ ≤ (1 / 2) * (2 * 10 ^ p) := by
        exact mul_le_mul_of_nonneg_right h (by positivity)
    _ = 1 * 10 ^ p := by ring

/-- Claim C3: converting a decimal-degree coordinate to a GPSDMS triple
(degrees = integer part, minutes = integer part of the fractional degrees
times 60, seconds = remaining fraction times 60 rounded to p decimal
places) and back to decimal degrees recovers the value within the rounding
tolerance; in particular 45.5 converts to 45 degrees 30 minutes 0 seconds
and back to exactly 45.5. -/
theorem claim_C3 :
    (∀ (x : ℚ) (p : Nat), |dmsToDD (ddToDMS x p) - x| ≤ 1 / (7200 * 10 ^ p)) ∧
    ddToDMS (91 / 2) 3 = { degrees := 45, minutes := 30, seconds := 0 } ∧
    dmsToDD (ddToDMS (91 / 2) 3) = 91 / 2 := by
  have e1 : ddToDMS (91 / 2) 3 = { degrees := 45, minutes := 30, seconds := 0 } := by
    norm_num [ddToDMS, roundToPrec]
    decide
  refine ⟨?_, e1, by rw [e1]; norm_num [dmsToDD]⟩
  intro x p
  have hpow : (0 : ℚ) < 10 ^ p := by positivity
  set d : ℤ := ⌊x⌋ with hd
  set mFrac : ℚ := (x - d) * 60 with hmf
  set m : ℤ := ⌊mFrac⌋ with hm
  have hmFrac0 : 0 ≤ mFrac := by
    rw [hmf]
    have : (d : ℚ) ≤ x := Int.floor_le x
    nlinarith
  have hm0 : 0 ≤ m := Int.floor_nonneg.mpr hmFrac0
  have hcast : ((m.toNat : ℚ)) = (m : ℚ) := by
    exact_mod_cast congrArg (fun z : ℤ => (z : ℚ)) (Int.toNat_of_nonneg hm0)
  set s0 : ℚ := (mFrac - m) * 60 with hs0
  have hval : dmsToDD (ddToDMS x p) = (d : ℚ) + (m : ℚ) / 60 + roundToPrec p s0 / 3600 := by
    simp only [ddToDMS, dmsToDD, ← hd, ← hmf, ← hm, ← hs0, hcast]
  have hexact : (d : ℚ) + (m : ℚ) / 60 + s0 / 3600 = x := by
    rw [hs0, hmf]
    ring
  have hdiff : dmsToDD (ddToDMS x p) - x = (roundToPrec p s0 - s0) / 3600 := by
    rw [hval, ← hexact]
    ring
  rw [hdiff, abs_div, abs_of_pos (by norm_num : (0 : ℚ) < 3600)]
  have hclose := roundToPrec_close p s0
  rw [div_le_div_iff (by norm_num : (0 : ℚ) < 3600) (by positivity)]
  calc |roundToPrec p s0 - s0| * (7200 * 10 ^ p)
      ≤ (1 / (2 * 10 ^ p)) * (7200 * 10 ^ p) := by
        exact mul_le_mul_of_nonneg_right hclose (by positivity)
    _ = 1 * 3600 := by
        field_simp
        ring

/-! ## GPS engine -/

/-- Modelled from the spec: GPS Fix (spec section 3) — UTC time, position,
velocity, accuracy, navigation status and the ordered satellite sequence.
The core implementation is not under src/. -/
structure GPSInfo where
  current_time : Nat
  latitude : ℚ
  longitude : ℚ
  sog_kmh : ℚ
  cog : ℚ
  altitude : ℚ
  h_acc : ℚ
  v_acc : ℚ
  nav_stat : Nat
  satellites : List GPSSatInfo
deriving DecidableEq, Repr

/-- The zero/default fix: all fields zero, empty satellite sequence. -/
def GPSInfo.default : GPSInfo :=
  { current_time := 0, latitude := 0, longitude := 0, sog_kmh := 0, cog := 0,
    altitude := 0, h_acc := 0, v_acc := 0, nav_stat := 0, satellites := [] }

/-- Modelled from the spec: an incoming receiver sentence (spec section
4.2) — a malformed fragment, or a well-formed report carrying the explicit
fix-quality indicator and decoded fix data with its satellite list. -/
inductive Sentence where
  | malformed
  | report (quality : Bool) (data : GPSInfo)
deriving DecidableEq, Repr

/-- Modelled from the spec: GPS Engine state (spec section 4.2) — Closed,
Open with no fix, or Open and locked, with the most recently parsed fix. -/
structure GPSState where
  isOpen : Bool
  hasLock : Bool
  fix : GPSInfo
deriving DecidableEq, Repr

/-- A GPS engine that has never been opened. -/
def GPSState.initial : GPSState :=
  { isOpen := false, hasLock := false, fix := GPSInfo.default }

/-- Modelled from the spec: gps_open powers the receiver channel; fails
with DeviceBusy if already open; the session starts with no lock and the
default fix. -/
def gps_open (st : GPSState) : Except MicError GPSState :=
  if st.isOpen then .error .deviceBusy
  else .ok { isOpen := true, hasLock := false, fix := GPSInfo.default }

/-- Modelled from the spec: gps_close tears down the channel; idempotent. -/
def gps_close (st : GPSState) : GPSState :=
  { st with isOpen := false, hasLock := false }

/-- Modelled from the spec: gps_is_open reports the open/closed flag. -/
def gps_is_open (st : GPSState) : Bool :=
  st.isOpen

/-- Modelled from the spec: gps_has_lock is a non-blocking poll of the
lock state; NotOpen when closed. -/
def gps_has_lock (st : GPSState) : Except MicError Bool :=
  if st.isOpen then .ok st.hasLock else .error .notOpen

/-- Modelled from the spec: gps_info returns the most recently parsed fix;
callable even before first lock; the only error is NotOpen. -/
def gps_info (st : GPSState) : Except MicError GPSInfo :=
  if st.isOpen then .ok st.fix else .error .notOpen

/-- Modelled from the spec: sentence decoding (spec sections 4.2, 7) —
malformed fragments are discarded, retaining last-known-good fields; a
well-formed report drives the lock state from its explicit fix-quality
indicator, and a quality report replaces the whole fix, including the
entire satellite sequence. -/
def processSentence (st : GPSState) (s : Sentence) : GPSState :=
  if st.isOpen then
    match s with
    | .malformed => st
    | .report q data =>
        if q then { st with hasLock := true, fix := data }
        else { st with hasLock := false }
  else st

/-- Whether a sentence is a report with a positive fix-quality indicator. -/
def isQualityReport : Sentence → Bool
  | .report true _ => true
  | _ => false

/-- The receiver's most recent well-formed report in a sentence stream. -/
def lastReport : List Sentence → Option (Bool × GPSInfo)
  | [] => none
  | s :: l =>
      match lastReport l with
      | some r => some r
      | none =>
          match s with
          | .malformed => none
          | .report q d => some (q, d)

theorem processSentence_isOpen (st : GPSState) (s : Sentence) :
    (processSentence st s).isOpen = st.isOpen := by
  cases s with
  | malformed => cases h : st.isOpen <;> simp [processSentence, h]
  | report q d => cases h : st.isOpen <;> cases q <;> simp [processSentence, h]

theorem fold_no_quality (l : List Sentence) :
    ∀ st : GPSState, st.isOpen = true → st.hasLock = false →
      (∀ s ∈ l, isQualityReport s = false) →
      l.foldl processSentence st = st := by
  induction l with
  | nil => intro st _ _ _; rfl
  | cons s l ih =>
      intro st hopen hlock hall
      have hs := hall s (List.mem_cons_self s l)
      have hrest : ∀ t ∈ l, isQualityReport t = false :=
        fun t ht => hall t (List.mem_cons_of_mem s ht)
      have hstep : processSentence st s = st := by
        cases s with
        | malformed => simp [processSentence]
        | report q d =>
            cases q with
            | true => simp [isQualityReport] at hs
            | false =>
                cases st
                simp_all [processSentence]
      rw [List.foldl_cons, hstep]
      exact ih st hopen hlock hrest

theorem fold_lastReport (l : List Sentence) :
    ∀ st : GPSState, st.isOpen = true →
      (l.foldl processSentence st).isOpen = true ∧
      (match lastReport l with
       | none => l.foldl processSentence st = st
       | some (q, d) =>
           (l.foldl processSentence st).hasLock = q ∧
           (q = true → (l.foldl processSentence st).fix = d)) := by
  induction l with
  | nil => intro st hopen; exact ⟨hopen, rfl⟩
  | cons s l ih =>
      intro st hopen
      have hopen' : (processSentence st s).isOpen = true := by
        rw [processSentence_isOpen]; exact hopen
      obtain ⟨ho, hrest⟩ := ih (processSentence st s) hopen'
      rw [List.foldl_cons]
      refine ⟨ho, ?_⟩
      cases hl : lastReport l with
      | some r =>
          obtain ⟨q, d⟩ := r
          rw [hl] at hrest
          simp only [lastReport, hl]
          exact hrest
      | none =>
          rw [hl] at hrest
          cases s with
          | malformed =>
              simp only [lastReport, hl]
              rw [hrest]
              simp [processSentence, hopen]
          | report q d =>
              simp only [lastReport, hl]
              rw [hrest]
              cases q <;> simp [processSentence, hopen]

/-! ## Claim about the GPS engine -/

/-- Claim C2: for every open GPS engine, gps_info never errors on "not yet
locked" — its only error is NotOpen, raised exactly when the engine is
closed; after gps_open, while only non-quality sentences have arrived,
every gps_info call returns the zero/default fix whose satellite sequence
is empty; and whenever gps_has_lock reports true, the satellite sequence
of gps_info is exactly (in particular, in length) the satellite list of
the receiver's most recent report. -/
theorem claim_C2 (st0 st1 : GPSState) (l : List Sentence)
    (hopen : gps_open st0 = .ok st1) :
    (∀ st : GPSState,
      (gps_info st = .error .notOpen ↔ st.isOpen = false) ∧
      (st.isOpen = true → gps_info st = .ok st.fix)) ∧
    ((∀ s ∈ l, isQualityReport s = false) →
      gps_info (l.foldl processSentence st1) = .ok GPSInfo.default ∧
      GPSInfo.default.satellites = []) ∧
    (gps_has_lock (l.foldl processSentence st1) = .ok true →
      ∃ d : GPSInfo, lastReport l = some (true, d) ∧
        gps_info (l.foldl processSentence st1) =
          .ok (l.foldl processSentence st1).fix ∧
        (l.foldl processSentence st1).fix.satellites = d.satellites ∧
        (l.foldl processSentence st1).fix.satellites.length = d.satellites.length) := by
  have hst1 : st1 = { isOpen := true, hasLock := false, fix := GPSInfo.default } := by
    cases h : st0.isOpen <;> simp [gps_open, h] at hopen
    exact hopen.symm
  subst hst1
  refine ⟨?_, ?_, ?_⟩
  · intro st
    constructor
    · cases h : st.isOpen <;> simp [gps_info, h]
    · intro h; simp [gps_info, h]
  · intro hall
    have hfold := fold_no_quality l
      { isOpen := true, hasLock := false, fix := GPSInfo.default } rfl rfl hall
    rw [hfold]
    exact ⟨rfl, rfl⟩
  · intro hlock
    obtain ⟨ho, hmatch⟩ := fold_lastReport l
      { isOpen := true, hasLock := false, fix := GPSInfo.default } rfl
    have hl : (l.foldl processSentence
        { isOpen := true, hasLock := false, fix := GPSInfo.default }).hasLock = true := by
      simp [gps_has_lock, ho] at hlock
      exact hlock
    cases hlr : lastReport l with
    | none =>
        rw [hlr] at hmatch
        rw [hmatch] at hl
        simp at hl
    | some r =>
        obtain ⟨q, d⟩ := r
        rw [hlr] at hmatch
        obtain ⟨hq, hfix⟩ := hmatch
        have hqt : q = true := hq.symm.trans hl
        subst hqt
        exact ⟨d, rfl, by simp [gps_info, ho], by rw [hfix rfl], by rw [hfix rfl]⟩

/-- A sample fix carrying two satellites, for exercising the claim. -/
def c2SampleFix : GPSInfo :=
  { GPSInfo.default with satellites := [GPSSatInfo.default, GPSSatInfo.default] }

/-- A sample sentence stream: one malformed fragment, then one quality
report carrying the sample fix. -/
def c2SampleStream : List Sentence :=
  [Sentence.malformed, Sentence.report true c2SampleFix]

/-- The state of a freshly opened GPS engine. -/
def c2OpenState : GPSState :=
  { isOpen := true, hasLock := false, fix := GPSInfo.default }

theorem claim_C2_witness :
    ∃ d : GPSInfo, lastReport c2SampleStream = some (true, d) ∧
      gps_info (c2SampleStream.foldl processSentence c2OpenState) =
        .ok (c2SampleStream.foldl processSentence c2OpenState).fix ∧
      (c2SampleStream.foldl processSentence c2OpenState).fix.satellites =
        d.satellites ∧
      (c2SampleStream.foldl processSentence c2OpenState).fix.satellites.length =
        d.satellites.length :=
  (claim_C2 GPSState.initial c2OpenState c2SampleStream rfl).2.2 rfl

/-! ## Audio capture pipeline -/

/-- Modelled from the spec: Audio Session state (spec sections 3, 4.3) —
Idle, Capturing with the target sample rate and the accumulated raw sample
buffer, or Stopped retaining the buffer.  The core implementation is not
under src/. -/
inductive AudioState where
  | idle
  | capturing (rate : Nat) (buf : List Int)
  | stopped (buf : List Int)
deriving DecidableEq, Repr

/-- Sample rates the device honors; 44100 is the rate the tests exercise. -/
def supportedRates : List Nat := [8000, 11025, 16000, 22050, 44100, 48000]

/-- Modelled from the spec: audio_start begins streaming raw samples at
the requested rate; AlreadyCapturing unless Idle, UnsupportedRate if the
device cannot honor the rate (spec section 4.3). -/
def audio_start (rate : Nat) (st : AudioState) : Except MicError AudioState :=
  match st with
  | .idle =>
      if rate ∈ supportedRates then .ok (.capturing rate [])
      else .error .unsupportedRate
  | _ => .error .alreadyCapturing

/-- Raw samples delivered by the transport while capturing are appended to
the buffer; in any other state the stream is not running. -/
def audioFeed (chunk : List Int) (st : AudioState) : AudioState :=
  match st with
  | .capturing r buf => .capturing r (buf ++ chunk)
  | s => s

/-- Modelled from the spec: audio_stop ends streaming and retains the
accumulated buffer; NotCapturing unless Capturing (spec section 4.3). -/
def audio_stop (st : AudioState) : Except MicError AudioState :=
  match st with
  | .capturing _ buf => .ok (.stopped buf)
  | _ => .error .notCapturing

/-- Leading magic of the compressed container the buffer is encoded into
(the tests save to an .ogg path). -/
def oggMagic : List Nat := [0x4F, 0x67, 0x67, 0x53]

/-- Modelled from the spec: the encode step — the buffered samples are
written out as a compressed audio file: container magic followed by the
encoded sample bytes. -/
def encodeOgg (buf : List Int) : List Nat :=
  oggMagic ++ buf.map (fun v => v.natAbs % 256)

/-- Modelled from the spec: audio_save encodes the buffered samples to a
file, returning its bytes, and transitions to Idle discarding the buffer;
NoBufferedAudio unless Stopped (spec section 4.3). -/
def audio_save (st : AudioState) : Except MicError (List Nat × AudioState) :=
  match st with
  | .stopped buf => .ok (encodeOgg buf, .idle)
  | _ => .error .noBufferedAudio

/-! ## Claim about the audio pipeline -/

/-- Claim C4: the audio pipeline follows Idle, Capturing, Stopped with
buffer, back to Idle: audio_start 44100 then audio_stop then audio_save
succeeds and produces a non-empty valid encoded audio file (it carries the
container magic), audio_save returns the pipeline to Idle discarding the
buffer, and a second audio_save without an intervening audio_start fails
with NoBufferedAudio. -/
theorem claim_C4 (chunk : List Int) :
    ∃ (st1 st2 : AudioState) (content : List Nat),
      audio_start 44100 .idle = .ok st1 ∧
      audio_stop (audioFeed chunk st1) = .ok st2 ∧
      audio_save st2 = .ok (content, .idle) ∧
      content ≠ [] ∧
      content.take 4 = oggMagic ∧
      audio_save .idle = .error .noBufferedAudio := by
  refine ⟨.capturing 44100 [], .stopped chunk, encodeOgg chunk, ?_, ?_, rfl, ?_, rfl, rfl⟩
  · simp [audio_start, supportedRates]
  · simp [audioFeed, audio_stop]
  · simp [encodeOgg, oggMagic]

/-! ## Concurrency: two callers racing on the shared register -/

/-- Modelled from the spec: concurrency model (spec sections 5, 9) — two
callers on the same open controller, thread A running io_buzzer_enable
true and thread B running io_gpsled_enable true.  Each runs acquire, read,
write, release under the controller's exclusive-access guard; pc counts
completed steps (0 to 4), saved holds the mask read inside the guard. -/
structure RaceState where
  lock : Option Bool
  mask : Nat
  saved0 : Nat
  pc0 : Nat
  saved1 : Nat
  pc1 : Nat
deriving DecidableEq, Repr

/-- One step of the buzzer thread (thread A = false): acquire the guard,
read the shared register, write the read-modified buzzer mask through
io_set_bitmode_raw semantics, release.  None when the thread is blocked. -/
def stepBuzzer (s : RaceState) : Option RaceState :=
  if s.pc0 = 0 then
    if s.lock = none then some { s with lock := some false, pc0 := 1 } else none
  else if s.pc0 = 1 then
    if s.lock = some false then some { s with saved0 := s.mask, pc0 := 2 } else none
  else if s.pc0 = 2 then
    if s.lock = some false then
      some { s with mask := buzzerWriteMask true s.saved0 % 256, pc0 := 3 }
    else none
  else if s.pc0 = 3 then
    if s.lock = some false then some { s with lock := none, pc0 := 4 } else none
  else none

/-- One step of the GPS-LED thread (thread B = true). -/
def stepLed (s : RaceState) : Option RaceState :=
  if s.pc1 = 0 then
    if s.lock = none then some { s with lock := some true, pc1 := 1 } else none
  else if s.pc1 = 1 then
    if s.lock = some true then some { s with saved1 := s.mask, pc1 := 2 } else none
  else if s.pc1 = 2 then
    if s.lock = some true then
      some { s with mask := gpsledWriteMask true s.saved1 % 256, pc1 := 3 }
    else none
  else if s.pc1 = 3 then
    if s.lock = some true then some { s with lock := none, pc1 := 4 } else none
  else none

/-- Run a schedule: at each tick the named thread takes its next step if
enabled, otherwise it stays blocked and the state is unchanged. -/
def runSched : List Bool → RaceState → RaceState
  | [], s => s
  | t :: l, s => runSched l ((if t then stepLed s else stepBuzzer s).getD s)

/-- The invariant of the race: the guard serializes the two
read-modify-write sections, the saved snapshot is current while the guard
is held, and bits written by a finished section are never lost. -/
def RaceInv (s : RaceState) : Prop :=
  s.mask < 256 ∧
  ((s.pc0 = 1 ∨ s.pc0 = 2 ∨ s.pc0 = 3) → s.lock = some false) ∧
  ((s.pc1 = 1 ∨ s.pc1 = 2 ∨ s.pc1 = 3) → s.lock = some true) ∧
  (s.pc0 = 2 → s.saved0 = s.mask) ∧
  (s.pc1 = 2 → s.saved1 = s.mask) ∧
  ((s.pc0 = 3 ∨ s.pc0 = 4) → s.mask &&& 0x11 = 0x11) ∧
  ((s.pc1 = 3 ∨ s.pc1 = 4) → s.mask &&& 0x44 = 0x44)

set_option maxRecDepth 2048 in
theorem buzzerMask_facts : ∀ m : Nat, m < 256 →
    (buzzerWriteMask true m % 256) &&& 0x11 = 0x11 ∧
    (m &&& 0x44 = 0x44 → (buzzerWriteMask true m % 256) &&& 0x44 = 0x44) := by
  decide

set_option maxRecDepth 2048 in
theorem ledMask_facts : ∀ m : Nat, m < 256 →
    (gpsledWriteMask true m % 256) &&& 0x44 = 0x44 ∧
    (m &&& 0x11 = 0x11 → (gpsledWriteMask true m % 256) &&& 0x11 = 0x11) := by
  decide

theorem stepBuzzer_inv {s s' : RaceState} (h : RaceInv s)
    (hs : stepBuzzer s = some s') : RaceInv s' := by
  obtain ⟨hm, h0, h1, hsv0, hsv1, hb0, hb1⟩ := h
  unfold stepBuzzer at hs
  split_ifs at hs with hpc0 hlk hpc1 hlk1 hpc2 hlk2 hpc3 hlk3 <;> cases hs
  · -- acquire
    unfold RaceInv
    dsimp only
    refine ⟨hm, fun _ => rfl, ?_, ?_, hsv1, ?_, hb1⟩
    · intro hc; exact absurd (hlk.symm.trans (h1 hc)) (by decide)
    · intro hc; exact absurd hc (by decide)
    · intro hc; rcases hc with hc | hc <;> exact absurd hc (by decide)
  · -- read
    unfold RaceInv
    dsimp only
    refine ⟨hm, fun _ => hlk1, ?_, fun _ => rfl, hsv1, ?_, hb1⟩
    · intro hc; exact absurd (hlk1.symm.trans (h1 hc)) (by decide)
    · intro hc; rcases hc with hc | hc <;> exact absurd hc (by decide)
  · -- write
    have hsm : s.saved0 = s.mask := hsv0 hpc2
    obtain ⟨hf1, hf2⟩ := buzzerMask_facts s.mask hm
    unfold RaceInv
    dsimp only
    refine ⟨Nat.mod_lt _ (by decide), fun _ => hlk2, ?_, ?_, ?_, ?_, ?_⟩
    · intro hc; exact absurd (hlk2.symm.trans (h1 hc)) (by decide)
    · intro hc; exact absurd hc (by decide)
    · intro hc; exact absurd (hlk2.symm.trans (h1 (Or.inr (Or.inl hc)))) (by decide)
    · intro _; rw [hsm]; exact hf1
    · intro hc; rw [hsm]; exact hf2 (hb1 hc)
  · -- release
    unfold RaceInv
    dsimp only
    refine ⟨hm, ?_, ?_, ?_, hsv1, fun _ => hb0 (Or.inl hpc3), hb1⟩
    · intro hc; rcases hc with hc | hc | hc <;> exact absurd hc (by decide)
    · intro hc; exact absurd (hlk3.symm.trans (h1 hc)) (by decide)
    · intro hc; exact absurd hc (by decide)

theorem stepLed_inv {s s' : RaceState} (h : RaceInv s)
    (hs : stepLed s = some s') : RaceInv s' := by
  obtain ⟨hm, h0, h1, hsv0, hsv1, hb0, hb1⟩ := h
  unfold stepLed at hs
  split_ifs at hs with hpc0 hlk hpc1 hlk1 hpc2 hlk2 hpc3 hlk3 <;> cases hs
  · -- acquire
    unfold RaceInv
    dsimp only
    refine ⟨hm, ?_, fun _ => rfl, hsv0, ?_, hb0, ?_⟩
    · intro hc; exact absurd (hlk.symm.trans (h0 hc)) (by decide)
    · intro hc; exact absurd hc (by decide)
    · intro hc; rcases hc with hc | hc <;> exact absurd hc (by decide)
  · -- read
    unfold RaceInv
    dsimp only
    refine ⟨hm, ?_, fun _ => hlk1, hsv0, fun _ => rfl, hb0, ?_⟩
    · intro hc; exact absurd (hlk1.symm.trans (h0 hc)) (by decide)
    · intro hc; rcases hc with hc | hc <;> exact absurd hc (by decide)
  · -- write
    have hsm : s.saved1 = s.mask := hsv1 hpc2
    obtain ⟨hf1, hf2⟩ := ledMask_facts s.mask hm
    unfold RaceInv
    dsimp only
    refine ⟨Nat.mod_lt _ (by decide), ?_, fun _ => hlk2, ?_, ?_, ?_, ?_⟩
    · intro hc; exact absurd (hlk2.symm.trans (h0 hc)) (by decide)
    · intro hc; exact absurd (hlk2.symm.trans (h0 (Or.inr (Or.inl hc)))) (by decide)
    · intro hc; exact absurd hc (by decide)
    · intro hc; rw [hsm]; exact hf2 (hb0 hc)
    · intro _; rw [hsm]; exact hf1
  · -- release
    unfold RaceInv
    dsimp only
    refine ⟨hm, ?_, ?_, hsv0, ?_, hb0, fun _ => hb1 (Or.inl hpc3)⟩
    · intro hc; exact absurd (hlk3.symm.trans (h0 hc)) (by decide)
    · intro hc; rcases hc with hc | hc | hc <;> exact absurd hc (by decide)
    · intro hc; exact absurd hc (by decide)

theorem runSched_inv (sched : List Bool) :
    ∀ s : RaceState, RaceInv s → RaceInv (runSched sched s) := by
  induction sched with
  | nil => intro s h; exact h
  | cons t l ih =>
      intro s h
      have hstep : RaceInv ((if t then stepLed s else stepBuzzer s).getD s) := by
        cases t with
        | false =>
            cases hb : stepBuzzer s with
            | none => simpa [hb] using h
            | some s' => simpa [hb] using stepBuzzer_inv h hb
        | true =>
            cases hb : stepLed s with
            | none => simpa [hb] using h
            | some s' => simpa [hb] using stepLed_inv h hb
      exact ih _ hstep

/-- The starting state of the race: guard free, both threads not yet
started, shared register holding an arbitrary byte. -/
def raceInit (m0 : Nat) : RaceState :=
  { lock := none, mask := m0, saved0 := 0, pc0 := 0, saved1 := 0, pc1 := 0 }

theorem raceInit_inv (m0 : Nat) (hm : m0 < 256) : RaceInv (raceInit m0) := by
  unfold RaceInv raceInit
  dsimp only
  refine ⟨hm, ?_, ?_, ?_, ?_, ?_, ?_⟩ <;> (intro hc; exact absurd hc (by omega))

/-! ## Claim about the race -/

/-- Claim C9: when io_buzzer_enable true and io_gpsled_enable true are
executed concurrently by two callers on the same open controller, each as
a guarded read-modify-write, every interleaving in which both callers
complete ends with a raw output mask containing both the buzzer
enable+value bits and the GPS-LED enable+value bits — no lost update. -/
theorem claim_C9 (m0 : Nat) (sched : List Bool) (hm : m0 < 256)
    (h0 : (runSched sched (raceInit m0)).pc0 = 4)
    (h1 : (runSched sched (raceInit m0)).pc1 = 4) :
    (runSched sched (raceInit m0)).mask &&& (buzzerEnableBit ||| buzzerValueBit) =
      buzzerEnableBit ||| buzzerValueBit ∧
    (runSched sched (raceInit m0)).mask &&& (gpsledEnableBit ||| gpsledValueBit) =
      gpsledEnableBit ||| gpsledValueBit := by
  obtain ⟨-, -, -, -, -, hb0, hb1⟩ :=
    runSched_inv sched (raceInit m0) (raceInit_inv m0 hm)
  have e17 : buzzerEnableBit ||| buzzerValueBit = 0x11 := by decide
  have e68 : gpsledEnableBit ||| gpsledValueBit = 0x44 := by decide
  rw [e17, e68]
  exact ⟨hb0 (Or.inr h0), hb1 (Or.inr h1)⟩

/-- A complete interleaving: the buzzer thread runs its four steps, then
the LED thread runs its four steps. -/
def c9Sched : List Bool := [false, false, false, false, true, true, true, true]

theorem claim_C9_witness :
    (runSched c9Sched (raceInit 0)).pc0 = 4 ∧
    (runSched c9Sched (raceInit 0)).pc1 = 4 ∧
    (runSched c9Sched (raceInit 0)).mask &&& (buzzerEnableBit ||| buzzerValueBit) =
      buzzerEnableBit ||| buzzerValueBit ∧
    (runSched c9Sched (raceInit 0)).mask &&& (gpsledEnableBit ||| gpsledValueBit) =
      gpsledEnableBit ||| gpsledValueBit := by
  obtain ⟨ha, hb⟩ := claim_C9 0 c9Sched (by decide) (by decide) (by decide)
  exact ⟨by decide, by decide, ha, hb⟩
